import Mathlib

/-!
Verification development for the DGFT ITC(HS) PDF acquisition engine
(`extract_dgft_pdfs.py`).

Python text is modelled as `List Char` (the ASCII fragment of Python's
`str`, which covers every literal appearing in the program).  Pure string
manipulations (`re.sub`, `.strip`, `.replace`, slicing) are translated
function by function; the browser-facing control flow of `process_card`
and `main` is modelled as explicit state passing producing an outcome and
an effect trace.
-/

namespace DGFT

/-- Python text, modelled as a list of characters. -/
abbrev Str := List Char

/-- The ASCII fragment of Python's regex class `\s`
(space, tab, newline, carriage return, vertical tab, form feed). -/
def isSpaceChar (c : Char) : Bool :=
  c == ' ' || c == '\t' || c == '\n' || c == '\r' ||
  c == Char.ofNat 11 || c == Char.ofNat 12

/-- The ASCII fragment of Python's regex class `\w`: letters, digits, underscore. -/
def isWordChar (c : Char) : Bool :=
  c.isAlpha || c.isDigit || c == '_'

/-- The character class kept by `re.sub(r'[^\w\s-]', '', s)`:
word characters, whitespace, and hyphen. -/
def keepChar (c : Char) : Bool :=
  isWordChar c || isSpaceChar c || c == '-'

/-- Drop the longest suffix of `l` whose characters satisfy `p`. -/
def dropTrail (p : Char → Bool) (l : Str) : Str :=
  (l.reverse.dropWhile p).reverse

/-- Python `str.strip(chars)` generalised to a predicate: remove matching
characters from both ends. -/
def stripOn (p : Char → Bool) (l : Str) : Str :=
  dropTrail p (l.dropWhile p)

/-- Python `str.strip()` with no argument: strip whitespace from both ends. -/
def pyStrip (l : Str) : Str := stripOn isSpaceChar l

/-- Python `str.replace(a, b)` for single characters. -/
def replaceChar (a b : Char) (l : Str) : Str :=
  l.map (fun c => if c == a then b else c)

/-- The single-character substitution performed by `.replace(' ', '_')`. -/
def spaceToUnderscore (c : Char) : Char :=
  if c == ' ' then '_' else c

/-- The inline filename-component sanitizer of `extract_dgft_pdfs.py`
(lines 259-260): `re.sub(r'[^\w\s-]', '', s).strip().replace(' ', '_')`. -/
def sanitize (s : Str) : Str :=
  (pyStrip (s.filter keepChar)).map spaceToUnderscore

/-- Truncation of the sanitized description column (lines 263-264):
`if len(safe_col1) > 80: safe_col1 = safe_col1[:80]`. -/
def truncateDesc (s : Str) : Str :=
  if 80 < s.length then s.take 80 else s

/-- Worker for Python substring replacement: scan left to right; on a
pattern match emit the replacement and skip the matched characters (the
skip counter carries the `pat.length - 1` characters still to drop after
the head was consumed), giving Python's non-overlapping left-to-right
`str.replace` semantics. -/
def replaceSubGo (pat rep : Str) : Str → Nat → Str
  | [], _ => []
  | c :: rest, 0 =>
      if 0 < pat.length ∧ pat.isPrefixOf (c :: rest) then
        rep ++ replaceSubGo pat rep rest (pat.length - 1)
      else
        c :: replaceSubGo pat rep rest 0
  | _ :: rest, Nat.succ n => replaceSubGo pat rep rest n

/-- Python substring replacement `s.replace(pat, rep)` for a nonempty
pattern (both patterns used by the program are nonempty literals). -/
def replaceSub (pat rep s : Str) : Str := replaceSubGo pat rep s 0

/-- The per-row filename prefix (line 268):
`card_title.replace(' ', '_').replace('ITC(HS)_based_', '').replace('Details', '').strip('_')`. -/
def prefixPart (title : Str) : Str :=
  stripOn (fun c => c == '_')
    (replaceSub ("Details".toList) []
      (replaceSub ("ITC(HS)_based_".toList) []
        (replaceChar ' ' '_' title)))

/-- The card-level filename (lines 96-97, 117-118, 170-171):
`f"{card_title.replace(' ', '_')}.pdf"`, truncated to 240 characters with
`".pdf"` re-appended when too long. -/
def cardFilename (title : Str) : Str :=
  let f := replaceChar ' ' '_' title ++ (".pdf").toList
  if 240 < f.length then f.take 240 ++ (".pdf").toList else f

/-- The per-row filename (lines 269-273):
`f"{prefix}_{safe_col0}_{safe_col1}.pdf"`, truncated to 240 characters
with `".pdf"` re-appended when too long.  `code` and `desc` are the
already-stripped first two column texts. -/
def rowFilename (title code desc : Str) : Str :=
  let f := prefixPart title ++ ("_").toList ++ sanitize code ++
           ("_").toList ++ truncateDesc (sanitize desc) ++ (".pdf").toList
  if 240 < f.length then f.take 240 ++ (".pdf").toList else f

/-- Does `pat` occur as a contiguous substring (Python's `pat in s`)? -/
def containsSub (pat : Str) : Str → Bool
  | [] => pat.isEmpty
  | c :: rest => pat.isPrefixOf (c :: rest) || containsSub pat rest

/-- Python `str.lower()` (ASCII). -/
def lowerStr (s : Str) : Str := s.map Char.toLower

/-- The PDF heuristic applied to URLs (lines 115 and 168):
`url.lower().endswith(".pdf") or "pdf" in url.lower() or "/website/" in url.lower()`. -/
def isPdfLike (u : Str) : Bool :=
  (".pdf").toList.isSuffixOf (lowerStr u) ||
  containsSub ("pdf").toList (lowerStr u) ||
  containsSub ("/website/").toList (lowerStr u)

/-- The scheme prefix recognised by the blob filter (line 324). -/
def blobScheme : Str := ("blob:").toList

/-- The blob-polling loop (lines 319-327).  `buf k` is the content of
`window._opened_urls` at the `k`-th read after the click; `attempts`
polls remain; `used` polls already happened.  Returns the first blob URL
found (if any) together with the number of polls performed. -/
def pollBlob (buf : Nat → List Str) : Nat → Nat → Option Str × Nat
  | 0, used => (none, used)
  | Nat.succ n, used =>
      match (buf used).filter (fun u => blobScheme.isPrefixOf u) with
      | [] => pollBlob buf n (used + 1)
      | b :: _ => (some b, used + 1)

/-! ### Card-level delivery resolution (`process_card`, lines 84-211) -/

/-- A secondary browser tab (an entry of `context.pages` other than the
primary page). -/
structure Tab where
  url : Str
deriving DecidableEq

/-- Observable side effects of the engine, in program order.
`checkExists p` is the `os.path.exists` probe, `saveDownload p` the native
`download.save_as`, `waitLoad` the per-tab `wait_for_load_state`, `fetch`
the in-page `fetch` of PDF bytes, `write p` the local file write,
`click` a row-link click, `closeTab` a secondary-tab close. -/
inductive Eff where
  | checkExists (p : Str)
  | saveDownload (p : Str)
  | waitLoad
  | fetch
  | write (p : Str)
  | click
  | closeTab
deriving DecidableEq

/-- Terminal outcome of card-level delivery resolution. -/
inductive CardOutcome where
  | listPresent
  | downloadsSaved
  | pagePdfSkipped
  | pagePdfSaved
  | tabPdfSkipped
  | tabPdfSaved
  | notFound
deriving DecidableEq

/-- Result of resolving one card: the outcome, the effect trace, and the
secondary tabs still open afterwards. -/
structure CardResult where
  outcome : CardOutcome
  trace : List Eff
  tabsAfter : List Tab
deriving DecidableEq

/-- The new-tab scan (lines 159-211): walk the secondary tabs in order;
each is awaited (`wait_for_load_state`); the first PDF-like one is
handled (Gatekeeper skip, else fetch + write) and closed; non-PDF tabs
are left open (the `subpage.close()` on line 208 is commented out); if no
tab matches, the outcome is `notFound`. -/
def scanTabs (p : Str) (fs : List Str) (force : Bool) : List Tab → CardResult
  | [] => ⟨.notFound, [], []⟩
  | t :: rest =>
      if isPdfLike t.url then
        if fs.contains p && !force then
          ⟨.tabPdfSkipped, [.waitLoad, .checkExists p, .closeTab], rest⟩
        else
          ⟨.tabPdfSaved, [.waitLoad, .checkExists p, .fetch, .write p, .closeTab], rest⟩
      else
        let r := scanTabs p fs force rest
        ⟨r.outcome, .waitLoad :: r.trace, t :: r.tabsAfter⟩

/-- The browser-side situation right after a card has been activated. -/
structure CardEnv where
  cardTitle : Str
  /-- Whether `#itcdetails` appears within the bounded wait (line 88). -/
  tablePresent : Bool
  /-- Number of native download events recorded since activation (line 75). -/
  downloads : Nat
  /-- The primary page's URL. -/
  pageUrl : Str
  /-- Secondary tabs currently open. -/
  tabs : List Tab

/-- Card-level delivery resolution (lines 84-211): wait for the results
table; else handle recorded native downloads (saved unconditionally, no
existence check — lines 93-103); else test the current page's URL against
the PDF heuristic (Gatekeeper applied, lines 115-153); else scan the
secondary tabs; else `notFound`. -/
def resolveCard (env : CardEnv) (fs : List Str) (force : Bool) : CardResult :=
  if env.tablePresent then ⟨.listPresent, [], env.tabs⟩
  else if 0 < env.downloads then
    ⟨.downloadsSaved,
     (List.range env.downloads).map (fun _ => .saveDownload (cardFilename env.cardTitle)),
     env.tabs⟩
  else if isPdfLike env.pageUrl then
    let p := cardFilename env.cardTitle
    if fs.contains p && !force then ⟨.pagePdfSkipped, [.checkExists p], env.tabs⟩
    else ⟨.pagePdfSaved, [.checkExists p, .fetch, .write p], env.tabs⟩
  else scanTabs (cardFilename env.cardTitle) fs force env.tabs

/-- Effects that transfer PDF bytes onto disk (any overwrite goes through
one of these). -/
def effWrites : Eff → Bool
  | .saveDownload _ => true
  | .write _ => true
  | _ => false

/-! ### Row processing (`process_card`, lines 223-386) -/

/-- A results-table row as the loop body sees it: the raw texts of the
first two columns, whether a PDF link is resolvable, whether clicking it
succeeds, and the content of `window._opened_urls` at each poll after the
click. -/
structure Row where
  code : Str
  desc : Str
  hasLink : Bool
  clickOk : Bool
  buf : Nat → List Str

/-- Configuration threaded into the row loop. -/
structure RowCfg where
  cardTitle : Str
  target : Option Str
  force : Bool

/-- Control-flow outcome of one row-loop iteration. -/
inductive RowOutcome where
  | filteredOut
  | skippedExists
  | noLink
  | clickFailed
  | blobFailed
  | saved
deriving DecidableEq

/-- The chapter filter (line 255): `if target_chapter and col0_text !=
target_chapter: continue` — skip iff the filter is a nonempty string and
the stripped first-column text differs from it. -/
def filterSkip (target : Option Str) (code0 : Str) : Bool :=
  match target with
  | none => false
  | some t => !t.isEmpty && !(code0 == t)

/-- One row-loop iteration (lines 236-360), producing the outcome and the
effect trace: filter check; Gatekeeper (line 277); link resolution;
click; blob polling; fetch + write; closing of spawned tabs (356-358). -/
def rowStepTr (cfg : RowCfg) (fs : List Str) (r : Row) : RowOutcome × List Eff :=
  let code0 := pyStrip r.code
  let desc0 := pyStrip r.desc
  if filterSkip cfg.target code0 then (.filteredOut, [])
  else
    let fn := rowFilename cfg.cardTitle code0 desc0
    if fs.contains fn && !cfg.force then (.skippedExists, [.checkExists fn])
    else if !r.hasLink then (.noLink, [.checkExists fn])
    else if !r.clickOk then (.clickFailed, [.checkExists fn, .click])
    else
      match (pollBlob r.buf 20 0).1 with
      | none => (.blobFailed, [.checkExists fn, .click, .closeTab])
      | some _ => (.saved, [.checkExists fn, .click, .fetch, .write fn, .closeTab])

/-- Outcomes whose control flow reaches the end of the loop body (line
362); `continue`-style outcomes bypass the early-exit check. -/
def reachesEnd : RowOutcome → Bool
  | .noLink => true
  | .blobFailed => true
  | .saved => true
  | _ => false

/-- The early-exit test at lines 362-365: `if target_chapter and
col0_text == target_chapter: return`, evaluated only when the iteration
reaches the end of the loop body. -/
def earlyExitAfter (cfg : RowCfg) (r : Row) (o : RowOutcome) : Bool :=
  reachesEnd o &&
    (match cfg.target with
     | none => false
     | some t => !t.isEmpty && pyStrip r.code == t)

/-- The row loop over one page (lines 236-365): outcomes of the visited
rows, whether the early exit fired, and the updated set of on-disk files. -/
def processRows (cfg : RowCfg) : List Str → List Row → List RowOutcome × Bool × List Str
  | fs, [] => ([], false, fs)
  | fs, r :: rs =>
      let o := (rowStepTr cfg fs r).1
      let fs' := if o = .saved
                 then rowFilename cfg.cardTitle (pyStrip r.code) (pyStrip r.desc) :: fs
                 else fs
      if earlyExitAfter cfg r o then ([o], true, fs')
      else
        let p := processRows cfg fs' rs
        (o :: p.1, p.2.1, p.2.2)

/-- The pagination loop (lines 226-384): visit pages in order; an empty
row set stops the loop; the early exit returns from the card; otherwise
the next page is requested while one remains.  Returns the per-page
outcome lists of every page actually visited. -/
def processPages (cfg : RowCfg) : List Str → List (List Row) → List (List RowOutcome)
  | _, [] => []
  | fs, pg :: rest =>
      if pg.isEmpty then [[]]
      else
        let p := processRows cfg fs pg
        if p.2.1 then [p.1]
        else p.1 :: processPages cfg p.2.2 rest

/-! ### Orchestrator (`main`, lines 389-446) -/

/-- The `--policy` choice. -/
inductive Policy where
  | pimport
  | pexport
  | pall
deriving DecidableEq

/-- The parsed command-line arguments consumed by `main`. -/
structure Args where
  force : Bool
  chapter : Option Str
  policy : Policy
  sectionFilter : Option Str
  skipExtras : Bool
  onlyExtras : Bool

/-- Effects of `main`, in program order.  `processCard t` stands for a
`process_card` call, which itself begins by navigating to the base URL. -/
inductive MainEff where
  | mkDownloadDir
  | launchBrowser
  | newContext
  | newPage
  | errorBothExtras
  | processCard (title : Str)
deriving DecidableEq

/-- The `--section` filter (lines 408-411): process every card when the
filter is absent or empty, else require a case-insensitive substring
match against the title. -/
def shouldProcess (sec : Option Str) (title : Str) : Bool :=
  match sec with
  | none => true
  | some s => s.isEmpty || containsSub (lowerStr s) (lowerStr title)

/-- The extra/auxiliary import items (lines 14-28). -/
def IMPORT_EXTRA_ITEMS : List Str :=
  [("Notification").toList,
   ("How to Read Import Policy").toList,
   ("General Notes to Import Policy").toList,
   ("Appendix-1").toList,
   ("Appendix-2").toList,
   ("Appendix-3").toList,
   ("Appendix-4").toList,
   ("Appendix-5").toList,
   ("Restricted Item Details").toList,
   ("Prohibited Item Details").toList,
   ("FAQs on Restricted Items").toList,
   ("Import of Pets").toList,
   ("STE Item Details").toList]

/-- The extra/auxiliary export items (lines 30-42). -/
def EXPORT_EXTRA_ITEMS : List Str :=
  [("Notification").toList,
   ("How to Read Export Policy").toList,
   ("General Notes to Export Policy").toList,
   ("Appendix-1").toList,
   ("Appendix-2").toList,
   ("Appendix-3").toList,
   ("Appendix-4").toList,
   ("Restricted Item Details").toList,
   ("Prohibited Item Details").toList,
   ("STE Item Details").toList,
   ("Previous Export Policy").toList]

/-- The card calls of the import-policy block (lines 419-430). -/
def importBlock (args : Args) : List MainEff :=
  (if args.policy = .pimport ∨ args.policy = .pall then
    (if !args.onlyExtras && shouldProcess args.sectionFilter ("ITC(HS) based Import Policy").toList
     then [.processCard ("ITC(HS) based Import Policy").toList] else []) ++
    (if !args.skipExtras then
      (IMPORT_EXTRA_ITEMS.filter (shouldProcess args.sectionFilter)).map .processCard
     else [])
   else [])

/-- The card calls of the export-policy block (lines 433-444). -/
def exportBlock (args : Args) : List MainEff :=
  (if args.policy = .pexport ∨ args.policy = .pall then
    (if !args.onlyExtras && shouldProcess args.sectionFilter ("ITC(HS) based Export Policy").toList
     then [.processCard ("ITC(HS) based Export Policy").toList] else []) ++
    (if !args.skipExtras then
      (EXPORT_EXTRA_ITEMS.filter (shouldProcess args.sectionFilter)).map .processCard
     else [])
   else [])

/-- The effect trace of `main` (lines 389-446): create the download
directory when missing; launch the browser, create a context and a page;
only then check the conflicting-flags condition (lines 414-416), which
prints an error and returns; else run the import and export blocks. -/
def mainTrace (dirExists : Bool) (args : Args) : List MainEff :=
  (if dirExists then [] else [.mkDownloadDir]) ++
  [.launchBrowser, .newContext, .newPage] ++
  (if args.skipExtras && args.onlyExtras then [.errorBothExtras]
   else importBlock args ++ exportBlock args)

/-! ### Lemmas about the filename sanitizer -/

theorem dropTrail_prefix (p : Char → Bool) (l : Str) : dropTrail p l <+: l := by
  refine ⟨(l.reverse.takeWhile p).reverse, ?_⟩
  unfold dropTrail
  rw [← List.reverse_append, List.takeWhile_append_dropWhile, List.reverse_reverse]

theorem mem_of_mem_dropTrail {p : Char → Bool} {l : Str} {c : Char}
    (h : c ∈ dropTrail p l) : c ∈ l := by
  unfold dropTrail at h
  rw [List.mem_reverse] at h
  exact List.mem_reverse.mp ((List.dropWhile_sublist p).mem h)

theorem mem_of_mem_stripOn {p : Char → Bool} {l : Str} {c : Char}
    (h : c ∈ stripOn p l) : c ∈ l :=
  (List.dropWhile_sublist p).mem (mem_of_mem_dropTrail h)

theorem sanitize_mem {x : Str} {c : Char} (h : c ∈ sanitize x) :
    keepChar c = true ∧ c ≠ ' ' := by
  unfold sanitize at h
  obtain ⟨d, hd, rfl⟩ := List.mem_map.mp h
  have hkeep : keepChar d = true := (List.mem_filter.mp (mem_of_mem_stripOn hd)).2
  unfold spaceToUnderscore
  by_cases hsp : d = ' '
  · subst hsp; exact ⟨by decide, by decide⟩
  · simp only [beq_iff_eq, hsp, if_false]
    exact ⟨hkeep, hsp⟩

theorem head?_stripOn {p : Char → Bool} {l : Str} {c : Char}
    (h : (stripOn p l).head? = some c) : p c = false := by
  unfold stripOn at h
  obtain ⟨s, hs⟩ := dropTrail_prefix p (l.dropWhile p)
  have h2 : (l.dropWhile p).head? = some c := by
    conv_lhs => rw [← hs]
    rw [List.head?_append, h]; rfl
  have h3 := List.head?_dropWhile_not p l
  rw [h2] at h3
  exact h3

theorem getLast?_stripOn {p : Char → Bool} {l : Str} {c : Char}
    (h : (stripOn p l).getLast? = some c) : p c = false := by
  unfold stripOn dropTrail at h
  rw [List.getLast?_reverse] at h
  have h3 := List.head?_dropWhile_not p (l.dropWhile p).reverse
  rw [h] at h3
  exact h3

theorem spaceToUnderscore_not_space {c : Char} (h : isSpaceChar c = false) :
    spaceToUnderscore c = c := by
  unfold spaceToUnderscore
  have : c ≠ ' ' := by
    intro hc; subst hc; simp [isSpaceChar] at h
  simp [this]

theorem sanitize_head_not_space {x : Str} {c : Char}
    (h : (sanitize x).head? = some c) : isSpaceChar c = false := by
  unfold sanitize at h
  rw [List.head?_map] at h
  cases hz : (pyStrip (x.filter keepChar)).head? with
  | none => rw [hz] at h; cases h
  | some d =>
      rw [hz] at h
      have hd : isSpaceChar d = false := head?_stripOn hz
      have : c = d := by
        have := h
        simp only [Option.map_some'] at this
        have hcd : spaceToUnderscore d = c := by injection this
        rw [spaceToUnderscore_not_space hd] at hcd
        exact hcd.symm
      rw [this]; exact hd

theorem sanitize_getLast_not_space {x : Str} {c : Char}
    (h : (sanitize x).getLast? = some c) : isSpaceChar c = false := by
  unfold sanitize at h
  rw [List.getLast?_map] at h
  cases hz : (pyStrip (x.filter keepChar)).getLast? with
  | none => rw [hz] at h; cases h
  | some d =>
      rw [hz] at h
      have hd : isSpaceChar d = false := getLast?_stripOn hz
      have : c = d := by
        simp only [Option.map_some'] at h
        have hcd : spaceToUnderscore d = c := by injection h
        rw [spaceToUnderscore_not_space hd] at hcd
        exact hcd.symm
      rw [this]; exact hd

theorem dropWhile_eq_self_of_head {p : Char → Bool} {l : Str}
    (h : ∀ c, l.head? = some c → p c = false) : l.dropWhile p = l := by
  cases l with
  | nil => rfl
  | cons c t =>
      have := h c rfl
      simp [List.dropWhile_cons, this]

theorem stripOn_eq_self {p : Char → Bool} {l : Str}
    (h1 : ∀ c, l.head? = some c → p c = false)
    (h2 : ∀ c, l.getLast? = some c → p c = false) : stripOn p l = l := by
  unfold stripOn dropTrail
  rw [dropWhile_eq_self_of_head h1]
  rw [dropWhile_eq_self_of_head (by
    intro c hc
    rw [List.head?_reverse] at hc
    exact h2 c hc)]
  exact List.reverse_reverse l

theorem sanitize_length_le (x : Str) : (sanitize x).length ≤ x.length := by
  unfold sanitize pyStrip stripOn
  rw [List.length_map]
  have h2 : (dropTrail isSpaceChar ((x.filter keepChar).dropWhile isSpaceChar)).length ≤
      ((x.filter keepChar).dropWhile isSpaceChar).length := by
    obtain ⟨s, hs⟩ := dropTrail_prefix isSpaceChar ((x.filter keepChar).dropWhile isSpaceChar)
    have h3 : ((x.filter keepChar).dropWhile isSpaceChar).length =
        (dropTrail isSpaceChar ((x.filter keepChar).dropWhile isSpaceChar)).length + s.length := by
      conv_lhs => rw [← hs]
      rw [List.length_append]
    omega
  calc (dropTrail isSpaceChar ((x.filter keepChar).dropWhile isSpaceChar)).length
      ≤ ((x.filter keepChar).dropWhile isSpaceChar).length := h2
    _ ≤ (x.filter keepChar).length := (List.dropWhile_sublist isSpaceChar).length_le
    _ ≤ x.length := List.length_filter_le _ _

/-- Claim C3 is false on the code: the sanitizer does not collapse runs of
whitespace into a single underscore (two adjacent spaces become two
underscores), does not trim leading/trailing underscores, and returns the
empty string — not a fallback token — when nothing remains. -/
theorem C3_counterexample :
    sanitize (("a  b").toList) = ("a__b").toList ∧
    sanitize (("_a_").toList) = ("_a_").toList ∧
    sanitize ([] : Str) = [] := by decide

/-- Claim C3 (amended): the sanitizer drops every character outside the
class {word characters, whitespace, hyphen}, strips leading and trailing
whitespace, and replaces each space character by an underscore.  It does
not collapse whitespace/underscore runs, does not trim underscores,
applies no length cap of its own (the 80-character cap is applied
separately to the description component only), and yields the empty
string — with no fallback token — whenever no character survives,
including for the empty input. -/
theorem C3_amended (x : Str) :
    (∀ c ∈ sanitize x, keepChar c = true ∧ c ≠ ' ') ∧
    (∀ c, (sanitize x).head? = some c → isSpaceChar c = false) ∧
    (∀ c, (sanitize x).getLast? = some c → isSpaceChar c = false) ∧
    (sanitize x).length ≤ x.length ∧
    ((∀ c ∈ x, keepChar c = false) → sanitize x = []) := by
  refine ⟨fun c hc => sanitize_mem hc,
          fun c hc => sanitize_head_not_space hc,
          fun c hc => sanitize_getLast_not_space hc,
          sanitize_length_le x, ?_⟩
  intro h
  unfold sanitize
  have : x.filter keepChar = [] := by
    rw [List.filter_eq_nil_iff]
    intro a ha
    rw [h a ha]; exact Bool.false_ne_true
  rw [this]; rfl

/-- Witness for the amended C3 at a concrete input consisting only of
disallowed characters. -/
theorem C3_amended_witness : sanitize (("##!").toList) = [] :=
  (C3_amended (("##!").toList)).2.2.2.2 (by decide)

/-- Claim C7: the sanitizer (a pure total Lean function, hence
deterministic and never failing) is idempotent:
`sanitize (sanitize x) = sanitize x` for every input. -/
theorem C7_sanitize_idempotent (x : Str) : sanitize (sanitize x) = sanitize x := by
  have hfilter : (sanitize x).filter keepChar = sanitize x :=
    List.filter_eq_self.mpr (fun c hc => (sanitize_mem hc).1)
  have hstrip : pyStrip (sanitize x) = sanitize x :=
    stripOn_eq_self (fun c hc => sanitize_head_not_space hc)
      (fun c hc => sanitize_getLast_not_space hc)
  have hmap : (sanitize x).map spaceToUnderscore = sanitize x := by
    have h1 : ∀ c ∈ sanitize x, spaceToUnderscore c = id c := fun c hc => by
      have h2 := (sanitize_mem hc).2
      unfold spaceToUnderscore
      simp [h2]
    rw [List.map_congr_left h1, List.map_id]
  show (pyStrip ((sanitize x).filter keepChar)).map spaceToUnderscore = sanitize x
  rw [hfilter, hstrip, hmap]

/-! ### Lemmas about filename construction -/

theorem pdfTrunc_length (base : Str) :
    (if 240 < (base ++ (".pdf").toList).length
     then (base ++ (".pdf").toList).take 240 ++ (".pdf").toList
     else base ++ (".pdf").toList).length ≤ 240 + (".pdf").toList.length := by
  split
  · rw [List.length_append, List.length_take]
    have h1 : (240 : Nat) ⊓ (base ++ (".pdf").toList).length ≤ 240 := inf_le_left
    omega
  · next h => omega

theorem pdfTrunc_suffix (base : Str) :
    (".pdf").toList <:+
      (if 240 < (base ++ (".pdf").toList).length
       then (base ++ (".pdf").toList).take 240 ++ (".pdf").toList
       else base ++ (".pdf").toList) := by
  split
  · exact List.suffix_append _ _
  · exact List.suffix_append _ _

/-- Claim C6: every generated filename — card-level and per-row — has
length at most the configured maximum (240) plus the length of the
`".pdf"` suffix, and the `".pdf"` suffix is present (re-appended after
truncation when the raw name was too long). -/
theorem C6_filename_length_bound (title code desc : Str) :
    (cardFilename title).length ≤ 240 + (".pdf").toList.length ∧
    (".pdf").toList <:+ cardFilename title ∧
    (rowFilename title code desc).length ≤ 240 + (".pdf").toList.length ∧
    (".pdf").toList <:+ rowFilename title code desc :=
  ⟨pdfTrunc_length (replaceChar ' ' '_' title),
   pdfTrunc_suffix (replaceChar ' ' '_' title),
   pdfTrunc_length (prefixPart title ++ ("_").toList ++ sanitize code ++
     ("_").toList ++ truncateDesc (sanitize desc)),
   pdfTrunc_suffix (prefixPart title ++ ("_").toList ++ sanitize code ++
     ("_").toList ++ truncateDesc (sanitize desc))⟩

/-! ### Lemmas about card-level delivery resolution -/

theorem scanTabs_no_pdf {p : Str} {fs : List Str} {force : Bool} :
    ∀ tabs : List Tab, (∀ t ∈ tabs, isPdfLike t.url = false) →
      scanTabs p fs force tabs = ⟨.notFound, tabs.map (fun _ => .waitLoad), tabs⟩ := by
  intro tabs
  induction tabs with
  | nil => intro h; rfl
  | cons t rest ih =>
      intro h
      have ht : isPdfLike t.url = false := h t (List.mem_cons_self t rest)
      have ihh := ih (fun u hu => h u (List.mem_cons_of_mem t hu))
      simp only [scanTabs]
      rw [if_neg (by rw [ht]; exact Bool.false_ne_true), ihh]
      rfl

theorem scanTabs_skip_no_write {p : Str} {fs : List Str} {force : Bool}
    (hmem : fs.contains p = true) (hf : force = false) :
    ∀ tabs : List Tab, ((scanTabs p fs force tabs).trace.any effWrites) = false
  | [] => rfl
  | t :: rest => by
      have ih := scanTabs_skip_no_write hmem hf rest
      by_cases ht : isPdfLike t.url = true
      · simp only [scanTabs]
        rw [if_pos ht, if_pos (by rw [hmem, hf]; rfl)]
        rfl
      · simp only [scanTabs]
        rw [if_neg ht]
        show ((Eff.waitLoad :: (scanTabs p fs force rest).trace).any effWrites) = false
        rw [List.any_cons, ih]
        rfl

theorem scanTabs_pdf_outcome {p : Str} {fs : List Str} {force : Bool} :
    ∀ {tabs : List Tab} {t : Tab}, t ∈ tabs → isPdfLike t.url = true →
      (scanTabs p fs force tabs).outcome = .tabPdfSkipped ∨
      (scanTabs p fs force tabs).outcome = .tabPdfSaved := by
  intro tabs
  induction tabs with
  | nil => intro t ht; cases ht
  | cons u rest ih =>
      intro t ht hpdf
      simp only [scanTabs]
      by_cases hu : isPdfLike u.url = true
      · rw [if_pos hu]
        by_cases hc : (fs.contains p && !force) = true
        · left; rw [if_pos hc]
        · right; rw [if_neg hc]
      · rw [if_neg hu]
        show (scanTabs p fs force rest).outcome = _ ∨ (scanTabs p fs force rest).outcome = _
        have htr : t ∈ rest := by
          rcases List.mem_cons.mp ht with h | h
          · subst h; exact absurd hpdf hu
          · exact h
        exact ih htr hpdf

/-- Claim C1 is false on the code: in the native-download branch (lines
93-103) the file is saved unconditionally — no existence check, no force
check — so a destination path already on disk is overwritten even with
the force flag unset.  Concrete input: one recorded download event for
card "Notification" whose target filename is already on disk. -/
theorem C1_counterexample :
    (resolveCard ⟨("Notification").toList, false, 1, ("https://x").toList, []⟩
        [cardFilename (("Notification").toList)] false).trace
      = [.saveDownload (cardFilename (("Notification").toList))] ∧
    (List.contains [cardFilename (("Notification").toList)]
        (cardFilename (("Notification").toList))) = true := by
  constructor
  · rfl
  · simp

/-- Claim C1 (amended): in the current-page-PDF, new-tab-PDF and per-row
branches, a destination path already on disk with the force flag unset is
never fetched or overwritten — the existence check decides the skip
before any fetch, click or write for that target, and the per-row
iteration's whole effect trace is the single existence probe.  In the
native-download branch, by contrast, no existence check is performed and
every recorded download is saved unconditionally. -/
theorem C1_amended (env : CardEnv) (fs : List Str) (cfg : RowCfg) (r : Row) :
    (env.downloads = 0 → fs.contains (cardFilename env.cardTitle) = true →
      ((resolveCard env fs false).trace.any effWrites) = false) ∧
    (filterSkip cfg.target (pyStrip r.code) = false →
      fs.contains (rowFilename cfg.cardTitle (pyStrip r.code) (pyStrip r.desc)) = true →
      cfg.force = false →
      rowStepTr cfg fs r =
        (.skippedExists,
         [.checkExists (rowFilename cfg.cardTitle (pyStrip r.code) (pyStrip r.desc))])) ∧
    (env.tablePresent = false → 0 < env.downloads →
      (resolveCard env fs false).trace =
        (List.range env.downloads).map (fun _ => .saveDownload (cardFilename env.cardTitle))) := by
  refine ⟨?_, ?_, ?_⟩
  · intro hdl hmem
    simp only [resolveCard]
    by_cases htab : env.tablePresent = true
    · rw [if_pos htab]
      rfl
    · rw [if_neg htab, hdl, if_neg (lt_irrefl 0)]
      by_cases hurl : isPdfLike env.pageUrl = true
      · rw [if_pos hurl, if_pos (by rw [hmem]; rfl)]
        rfl
      · rw [if_neg hurl]
        exact scanTabs_skip_no_write hmem rfl env.tabs
  · intro hfl hmem hforce
    simp only [rowStepTr]
    rw [if_neg (by rw [hfl]; exact Bool.false_ne_true),
        if_pos (by rw [hmem, hforce]; rfl)]
  · intro htab hdl
    simp only [resolveCard]
    rw [if_neg (by rw [htab]; exact Bool.false_ne_true), if_pos hdl]

/-- Witness for the amended C1: a concrete environment where the card
file already exists, `force` is unset, the table did not load and no
download fired — the card-level trace performs no write; and a concrete
row whose file already exists — the row iteration is exactly the
existence probe. -/
theorem C1_amended_witness :
    ((resolveCard ⟨("Import of Pets").toList, false, 0, ("https://x").toList,
        [⟨("https://a.pdf").toList⟩]⟩
        [cardFilename (("Import of Pets").toList)] false).trace.any effWrites) = false ∧
    rowStepTr ⟨("Sample Policy").toList, none, false⟩
        [rowFilename (("Sample Policy").toList) (("07").toList) (("Cotton Yarn").toList)]
        ⟨("07").toList, ("Cotton Yarn").toList, true, true, fun _ => []⟩ =
      (.skippedExists,
       [.checkExists (rowFilename (("Sample Policy").toList) (("07").toList)
          (("Cotton Yarn").toList))]) := by
  constructor
  · exact (C1_amended ⟨("Import of Pets").toList, false, 0, ("https://x").toList,
      [⟨("https://a.pdf").toList⟩]⟩
      [cardFilename (("Import of Pets").toList)]
      ⟨("Sample Policy").toList, none, false⟩
      ⟨("07").toList, ("Cotton Yarn").toList, true, true, fun _ => []⟩).1 rfl (by simp)
  · exact (C1_amended ⟨("Import of Pets").toList, false, 0, ("https://x").toList,
      [⟨("https://a.pdf").toList⟩]⟩
      [rowFilename (("Sample Policy").toList) (("07").toList) (("Cotton Yarn").toList)]
      ⟨("Sample Policy").toList, none, false⟩
      ⟨("07").toList, ("Cotton Yarn").toList, true, true, fun _ => []⟩).2.1
      rfl (by decide) rfl

/-- Claim C2: after card activation the delivery mechanisms are probed in
exactly the specified priority order — results table first
(`listPresent` hands off to row processing); else recorded native
download events are handled, and when any fired the trace consists of
their saves only (no further strategy); else the current page's URL is
tested against the PDF heuristic; else the secondary tabs are scanned
for a PDF-like URL; else the outcome is `notFound` (the resolver is a
total function: every environment yields an outcome, nothing escapes the
card boundary). -/
theorem C2_delivery_priority (env : CardEnv) (fs : List Str) (force : Bool) :
    (env.tablePresent = true → (resolveCard env fs force).outcome = .listPresent) ∧
    (env.tablePresent = false → 0 < env.downloads →
      (resolveCard env fs force).outcome = .downloadsSaved ∧
      ∀ e ∈ (resolveCard env fs force).trace,
        e = .saveDownload (cardFilename env.cardTitle)) ∧
    (env.tablePresent = false → env.downloads = 0 → isPdfLike env.pageUrl = true →
      ((resolveCard env fs force).outcome = .pagePdfSkipped ∨
       (resolveCard env fs force).outcome = .pagePdfSaved)) ∧
    (env.tablePresent = false → env.downloads = 0 → isPdfLike env.pageUrl = false →
      (∃ t ∈ env.tabs, isPdfLike t.url = true) →
      ((resolveCard env fs force).outcome = .tabPdfSkipped ∨
       (resolveCard env fs force).outcome = .tabPdfSaved)) ∧
    (env.tablePresent = false → env.downloads = 0 → isPdfLike env.pageUrl = false →
      (∀ t ∈ env.tabs, isPdfLike t.url = false) →
      (resolveCard env fs force).outcome = .notFound) := by
  refine ⟨?_, ?_, ?_, ?_, ?_⟩
  · intro htab
    simp only [resolveCard]
    rw [if_pos htab]
  · intro htab hdl
    constructor
    · simp only [resolveCard]
      rw [if_neg (by rw [htab]; exact Bool.false_ne_true), if_pos hdl]
    · intro e he
      simp only [resolveCard] at he
      rw [if_neg (by rw [htab]; exact Bool.false_ne_true), if_pos hdl] at he
      have he' : e ∈ (List.range env.downloads).map
          (fun _ => Eff.saveDownload (cardFilename env.cardTitle)) := he
      obtain ⟨n, _, rfl⟩ := List.mem_map.mp he'
      rfl
  · intro htab hdl hurl
    simp only [resolveCard]
    rw [if_neg (by rw [htab]; exact Bool.false_ne_true), hdl,
        if_neg (lt_irrefl 0), if_pos hurl]
    by_cases hc : (fs.contains (cardFilename env.cardTitle) && !force) = true
    · left; rw [if_pos hc]
    · right; rw [if_neg hc]
  · rintro htab hdl hurl ⟨t, hmem, hpdf⟩
    simp only [resolveCard]
    rw [if_neg (by rw [htab]; exact Bool.false_ne_true), hdl,
        if_neg (lt_irrefl 0), if_neg (by rw [hurl]; exact Bool.false_ne_true)]
    exact scanTabs_pdf_outcome hmem hpdf
  · intro htab hdl hurl hall
    simp only [resolveCard]
    rw [if_neg (by rw [htab]; exact Bool.false_ne_true), hdl,
        if_neg (lt_irrefl 0), if_neg (by rw [hurl]; exact Bool.false_ne_true)]
    rw [scanTabs_no_pdf env.tabs hall]

/-- Witness for C2: each branch of the priority order exercised at a
concrete environment. -/
theorem C2_delivery_priority_witness :
    (resolveCard ⟨("A").toList, true, 0, ("u").toList, []⟩ [] false).outcome
        = .listPresent ∧
    (resolveCard ⟨("A").toList, false, 2, ("u").toList, []⟩ [] false).outcome
        = .downloadsSaved ∧
    ((resolveCard ⟨("A").toList, false, 0, ("a.pdf").toList, []⟩ [] false).outcome
        = .pagePdfSkipped ∨
     (resolveCard ⟨("A").toList, false, 0, ("a.pdf").toList, []⟩ [] false).outcome
        = .pagePdfSaved) ∧
    ((resolveCard ⟨("A").toList, false, 0, ("u").toList,
        [⟨("b.pdf").toList⟩]⟩ [] false).outcome = .tabPdfSkipped ∨
     (resolveCard ⟨("A").toList, false, 0, ("u").toList,
        [⟨("b.pdf").toList⟩]⟩ [] false).outcome = .tabPdfSaved) ∧
    (resolveCard ⟨("A").toList, false, 0, ("u").toList,
        [⟨("https://y").toList⟩]⟩ [] false).outcome = .notFound :=
  ⟨(C2_delivery_priority ⟨("A").toList, true, 0, ("u").toList, []⟩ [] false).1 rfl,
   ((C2_delivery_priority ⟨("A").toList, false, 2, ("u").toList, []⟩ [] false).2.1
      rfl (by decide)).1,
   (C2_delivery_priority ⟨("A").toList, false, 0, ("a.pdf").toList, []⟩ [] false).2.2.1
      rfl rfl (by decide),
   (C2_delivery_priority ⟨("A").toList, false, 0, ("u").toList,
      [⟨("b.pdf").toList⟩]⟩ [] false).2.2.2.1 rfl rfl (by decide)
      ⟨⟨("b.pdf").toList⟩, by simp, by decide⟩,
   (C2_delivery_priority ⟨("A").toList, false, 0, ("u").toList,
      [⟨("https://y").toList⟩]⟩ [] false).2.2.2.2 rfl rfl (by decide)
      (by intro t ht; simp at ht; subst ht; decide)⟩

/-- Claim C8 is right about the intended behaviour but the code violates
it: in the new-tab scan the close of non-relevant tabs is commented out
(line 208, directly under the comment announcing it), and the
`notFound`, download and current-page exits close no tabs at all.
Concrete failing input: the table does not load, no download fired, the
page URL is not PDF-like, and one secondary tab with a non-PDF URL is
open — the card finishes `notFound` with that tab still open. -/
theorem C8_tab_left_open :
    (resolveCard ⟨("Appendix-1").toList, false, 0, ("https://x").toList,
        [⟨("https://y").toList⟩]⟩ [] false).outcome = .notFound ∧
    (resolveCard ⟨("Appendix-1").toList, false, 0, ("https://x").toList,
        [⟨("https://y").toList⟩]⟩ [] false).tabsAfter
      = [⟨("https://y").toList⟩] := by decide

/-! ### Lemmas about row processing -/

theorem pollBlob_none_of_no_blob (buf : Nat → List Str)
    (h : ∀ k u, u ∈ buf k → blobScheme.isPrefixOf u = false) :
    ∀ n used, pollBlob buf n used = (none, used + n) := by
  intro n
  induction n with
  | zero => intro used; rfl
  | succ n ih =>
      intro used
      have hfil : (buf used).filter (fun u => blobScheme.isPrefixOf u) = [] := by
        rw [List.filter_eq_nil_iff]
        intro a ha
        rw [h used a ha]
        exact Bool.false_ne_true
      simp only [pollBlob, hfil]
      rw [ih (used + 1)]
      congr 1
      omega

theorem rowStepTr_not_filtered {cfg : RowCfg} {fs : List Str} {r : Row}
    (h : filterSkip cfg.target (pyStrip r.code) = false) :
    (rowStepTr cfg fs r).1 ≠ .filteredOut := by
  simp only [rowStepTr]
  rw [if_neg (by rw [h]; exact Bool.false_ne_true)]
  split
  · simp
  · split
    · simp
    · split
      · simp
      · split <;> simp

/-- Claim C4 is false on the code: when the filtered row is skipped by
the Gatekeeper (its file already exists and force is unset), the
`continue` at line 279 bypasses the early-exit check at line 362, so the
remaining rows are still visited and the next page is still requested.
Concrete input: filter "07", the matching row's file already on disk —
the engine goes on to page 2 and visits its row instead of stopping. -/
theorem C4_counterexample :
    processPages ⟨("Sample Policy").toList, some (("07").toList), false⟩
      [rowFilename (("Sample Policy").toList) (("07").toList) (("Cotton Yarn").toList)]
      [[⟨("07").toList, ("Cotton Yarn").toList, true, true, fun _ => []⟩],
       [⟨("08").toList, ("Wool").toList, true, true, fun _ => []⟩]]
      = [[.skippedExists], [.filteredOut]] := by decide

/-- Claim C4 (amended): the early exit fires only when the matched row's
iteration reaches the end of the loop body (saved, blob capture failed,
or no link found).  In that case the card does stop immediately after the
matched row: no remaining row is visited and no further page is
requested.  When the matched row is skipped by the Gatekeeper or its
click fails, the loop continues instead. -/
theorem C4_amended (cfg : RowCfg) (fs : List Str) (t : Str) (r : Row) (rs : List Row)
    (pgs : List (List Row)) (htar : cfg.target = some t) (hne : t.isEmpty = false)
    (hcode : pyStrip r.code = t)
    (hreach : reachesEnd (rowStepTr cfg fs r).1 = true) :
    processPages cfg fs ((r :: rs) :: pgs) = [[(rowStepTr cfg fs r).1]] := by
  have hearly : earlyExitAfter cfg r (rowStepTr cfg fs r).1 = true := by
    unfold earlyExitAfter
    rw [hreach, htar]
    simp [hcode, hne]
  simp only [processPages, processRows]
  rw [if_neg (by simp), if_pos hearly]
  rfl

/-- Witness for the amended C4: filter "07" matches the first page's row,
the file is absent, the click yields no blob — the iteration reaches the
end as `blobFailed` and the card stops: page 2 is never requested. -/
theorem C4_amended_witness :
    processPages ⟨("Sample Policy").toList, some (("07").toList), false⟩ []
      [[⟨("07").toList, ("Cotton Yarn").toList, true, true, fun _ => []⟩],
       [⟨("08").toList, ("Wool").toList, true, true, fun _ => []⟩]]
      = [[.blobFailed]] := by
  rw [C4_amended ⟨("Sample Policy").toList, some (("07").toList), false⟩ []
      (("07").toList) ⟨("07").toList, ("Cotton Yarn").toList, true, true, fun _ => []⟩ []
      [[⟨("08").toList, ("Wool").toList, true, true, fun _ => []⟩]]
      rfl (by decide) (by decide) (by decide)]
  decide

/-- Claim C5 is false as stated on one point: when the failed row is also
the configured target match, the early exit at line 363 fires even after
a failed blob capture, so the row loop does not proceed to the next row.
Concrete input: filter "07", matching row clicks fine but no blob URL
ever appears — the loop stops after that row (one outcome, early-exit
flag set), never visiting the second row. -/
theorem C5_counterexample :
    processRows ⟨("Sample Policy").toList, some (("07").toList), false⟩ []
      [⟨("07").toList, ("Cotton Yarn").toList, true, true, fun _ => []⟩,
       ⟨("08").toList, ("Wool").toList, true, true, fun _ => []⟩]
      = ([.blobFailed], true, []) := by decide

/-- Claim C5 (amended): if no blob-scheme URL ever appears in the buffer,
the polling loop performs exactly the configured 20 attempts and returns
no URL — it never blocks; the row's outcome is `blobFailed`; and unless
the row is the configured target match (early exit), the row loop
proceeds to the next row: the failed row contributes its outcome and
processing of the remaining rows is unchanged. -/
theorem C5_amended :
    (∀ buf : Nat → List Str, (∀ k u, u ∈ buf k → blobScheme.isPrefixOf u = false) →
      pollBlob buf 20 0 = (none, 20)) ∧
    (∀ (cfg : RowCfg) (fs : List Str) (r : Row) (rs : List Row),
      (rowStepTr cfg fs r).1 = .blobFailed →
      earlyExitAfter cfg r .blobFailed = false →
      processRows cfg fs (r :: rs) =
        (.blobFailed :: (processRows cfg fs rs).1,
         (processRows cfg fs rs).2.1, (processRows cfg fs rs).2.2)) := by
  constructor
  · intro buf h
    exact pollBlob_none_of_no_blob buf h 20 0
  · intro cfg fs r rs hfail hnoexit
    simp only [processRows]
    rw [hfail]
    have hfs : (if (RowOutcome.blobFailed = RowOutcome.saved) then
        rowFilename cfg.cardTitle (pyStrip r.code) (pyStrip r.desc) :: fs else fs) = fs :=
      if_neg (by decide)
    rw [hfs, if_neg (by rw [hnoexit]; exact Bool.false_ne_true)]

/-- Witness for the amended C5: an always-empty buffer is polled exactly
20 times; with no filter configured, a two-row page records both failed
rows in order. -/
theorem C5_amended_witness :
    pollBlob (fun _ => []) 20 0 = (none, 20) ∧
    processRows ⟨("Sample Policy").toList, none, false⟩ []
      [⟨("07").toList, ("Cotton Yarn").toList, true, true, fun _ => []⟩,
       ⟨("08").toList, ("Wool").toList, true, true, fun _ => []⟩]
      = ([.blobFailed, .blobFailed], false, []) := by
  constructor
  · exact C5_amended.1 (fun _ => []) (fun k u hu => absurd hu (List.not_mem_nil u))
  · rw [C5_amended.2 ⟨("Sample Policy").toList, none, false⟩ []
      ⟨("07").toList, ("Cotton Yarn").toList, true, true, fun _ => []⟩
      [⟨("08").toList, ("Wool").toList, true, true, fun _ => []⟩]
      (by decide) (by decide)]
    decide

/-- Claim C10: with a (nonempty) chapter filter configured, a row is
selected if and only if its stripped first-column text is exactly equal —
case-sensitive, full-string — to the filter; every other row is filtered
out with an empty effect trace (no existence check, no click, no fetch). -/
theorem C10_filter_exact_match (cfg : RowCfg) (fs : List Str) (r : Row) (t : Str)
    (htar : cfg.target = some t) (hne : t.isEmpty = false) :
    (((rowStepTr cfg fs r).1 = .filteredOut) ↔ pyStrip r.code ≠ t) ∧
    (pyStrip r.code ≠ t → rowStepTr cfg fs r = (.filteredOut, [])) := by
  have hskip : pyStrip r.code ≠ t → filterSkip cfg.target (pyStrip r.code) = true := by
    intro hc
    unfold filterSkip
    rw [htar]
    simp [hne, hc]
  have hnoskip : pyStrip r.code = t → filterSkip cfg.target (pyStrip r.code) = false := by
    intro hc
    unfold filterSkip
    rw [htar]
    simp [hc]
  constructor
  · constructor
    · intro hout hc
      exact rowStepTr_not_filtered (hnoskip hc) hout
    · intro hc
      have hf := hskip hc
      simp only [rowStepTr]
      rw [if_pos hf]
  · intro hc
    have hf := hskip hc
    simp only [rowStepTr]
    rw [if_pos hf]

/-- Witness for C10: filter "07" and a row coded "08" — the iteration is
`filteredOut` with an empty effect trace. -/
theorem C10_filter_witness :
    rowStepTr ⟨("T").toList, some (("07").toList), false⟩ []
      ⟨("08").toList, ("d").toList, true, true, fun _ => []⟩ = (.filteredOut, []) :=
  (C10_filter_exact_match ⟨("T").toList, some (("07").toList), false⟩ []
    ⟨("08").toList, ("d").toList, true, true, fun _ => []⟩ (("07").toList)
    rfl (by decide)).2 (by decide)

/-! ### Theorems about the orchestrator -/

/-- Claim C9 is false on one point: the conflicting-flags check (lines
414-416) sits inside the `async_playwright` block, after the browser has
been launched and a context and a blank page created — so the error does
not precede all browser work.  Concrete input: both flags set — the trace
starts with the three browser-setup effects before the error. -/
theorem C9_counterexample :
    mainTrace true ⟨false, none, .pall, none, true, true⟩ =
      [.launchBrowser, .newContext, .newPage, .errorBothExtras] := by decide

/-- Claim C9 (amended): with both mutually exclusive flags set, `main`
prints the error and returns before any navigation and before any card
is processed — no `process_card` call occurs and nothing follows the
error — but the browser launch, context creation and page creation do
happen before the check. -/
theorem C9_amended (dirExists : Bool) (args : Args)
    (h1 : args.skipExtras = true) (h2 : args.onlyExtras = true) :
    mainTrace dirExists args =
      (if dirExists then [] else [.mkDownloadDir]) ++
      [.launchBrowser, .newContext, .newPage, .errorBothExtras] ∧
    ∀ t, MainEff.processCard t ∉ mainTrace dirExists args := by
  have hm : mainTrace dirExists args =
      (if dirExists then [] else [.mkDownloadDir]) ++
      [.launchBrowser, .newContext, .newPage, .errorBothExtras] := by
    unfold mainTrace
    have hflag : (args.skipExtras && args.onlyExtras) = true := by rw [h1, h2]; rfl
    simp [hflag]
  refine ⟨hm, ?_⟩
  intro t
  rw [hm]
  cases dirExists <;> simp

/-- Witness for the amended C9 with the download directory absent: the
directory creation and browser setup precede the error, and nothing
follows it. -/
theorem C9_amended_witness :
    mainTrace false ⟨false, none, .pall, none, true, true⟩ =
      [.mkDownloadDir, .launchBrowser, .newContext, .newPage, .errorBothExtras] := by
  rw [(C9_amended false ⟨false, none, .pall, none, true, true⟩ rfl rfl).1]
  rfl

end DGFT
